import Mathlib

/-!
Verification of the 3D-page telemetry serialization pipeline
(tornado_handlers/three_d.py, class ThreeDHandler, method get).

The handler extracts required and optional telemetry streams from a parsed
ULog object, computes a single UTC offset from the GPS stream at the takeoff
index, and serializes each stream into a textual array-of-arrays blob whose
records are an ISO-8601 UTC timestamp string followed by numeric fields at
fixed decimal precision.

Modelling conventions:
- numeric sample values are exact decimal numbers (integer mantissa times a
  negative power of ten), the Deci type below; the Python code holds numpy
  floats, and the only arithmetic the handler performs on them - scaling by a
  power of ten and fixed-point formatting - is modelled exactly on this
  representation (Deci.val gives the rational value);
- device timestamps are integers (microseconds, numpy unsigned integers);
- a dataset that failed to load (KeyError / IndexError / ValueError raised by
  ulog.get_dataset) is modelled as none of an Option type;
- Python str.format fixed-point formatting with round-half-even ties is
  modelled by fmtFixed;
- datetime.datetime.utcfromtimestamp(t/1.e6).replace(tzinfo=utc).isoformat()
  is modelled by isoUTC over the exact integer microsecond count (the float
  division t/1.e6 is abstracted as exact).
-/

/-- An exact decimal number: mant times ten to the minus exp. -/
structure Deci where
  mant : ℤ
  exp : ℕ
deriving DecidableEq

/-- The rational value of a decimal number (for reference; the serializers
below compute on the representation directly). -/
def Deci.val (d : Deci) : ℚ :=
  (d.mant : ℚ) / (10 : ℚ) ^ d.exp

/-- The decimal value of an integer sample multiplied by ten to the minus k,
as in the source expressions of the form value * 1.e-7 and value * 1.e-3
applied to integer-valued stored fields. -/
def intTimesPow10Neg (v : ℤ) (k : ℕ) : Deci :=
  { mant := v, exp := k }

/-- Left-pad a string with zeros up to the given width. -/
def zeroPad (w : Nat) (s : String) : String :=
  String.mk (List.replicate (w - s.length) '0') ++ s

/-- Round the fraction num / den (den positive) to the nearest integer,
ties to even: the rounding used by Python fixed-point string formatting. -/
def roundHalfEvenFrac (num den : ℤ) : ℤ :=
  let n := num.fdiv den
  let r := num - n * den
  if 2 * r < den then n
  else if den < 2 * r then n + 1
  else if n % 2 = 0 then n else n + 1

/-- Python fixed-point formatting of a decimal number
to a given number of decimal places. -/
def fmtFixed (prec : Nat) (d : Deci) : String :=
  let m := roundHalfEvenFrac (d.mant * (10 : ℤ) ^ prec) ((10 : ℤ) ^ d.exp)
  let a := m.natAbs
  let ip := a / 10 ^ prec
  let fp := a % 10 ^ prec
  let sign := if m < 0 then "-" else ""
  if prec = 0 then sign ++ Nat.repr ip
  else sign ++ Nat.repr ip ++ "." ++ zeroPad prec (Nat.repr fp)

/-- Proleptic-Gregorian civil date from a count of days since 1970-01-01
(year, month, day). -/
def civilFromDays (z0 : ℤ) : ℤ × Nat × Nat :=
  let z := z0 + 719468
  let era := z.fdiv 146097
  let doe := (z - era * 146097).toNat
  let yoe := (doe - doe / 1460 + doe / 36524 - doe / 146096) / 365
  let y := (yoe : ℤ) + era * 400
  let doy := doe - (365 * yoe + yoe / 4 - yoe / 100)
  let mp := (5 * doy + 2) / 153
  let d := doy - (153 * mp + 2) / 5 + 1
  let m := if mp < 10 then mp + 3 else mp - 9
  (if m ≤ 2 then y + 1 else y, m, d)

/-- The ISO-8601 string produced by
datetime.datetime.utcfromtimestamp(t/1.e6).replace(tzinfo=utc).isoformat()
for an integer count t of microseconds since the Unix epoch: the fractional
second is omitted when the microsecond component is zero, and the UTC zone
renders as the +00:00 suffix. -/
def isoUTC (t : ℤ) : String :=
  let sec := t.fdiv 1000000
  let micro := (t.emod 1000000).toNat
  let days := sec.fdiv 86400
  let sod := (sec.emod 86400).toNat
  let c := civilFromDays days
  let hh := sod / 3600
  let mi := sod % 3600 / 60
  let ss := sod % 60
  zeroPad 4 (Nat.repr c.1.toNat) ++ "-" ++ zeroPad 2 (Nat.repr c.2.1) ++ "-" ++
    zeroPad 2 (Nat.repr c.2.2) ++ "T" ++ zeroPad 2 (Nat.repr hh) ++ ":" ++
    zeroPad 2 (Nat.repr mi) ++ ":" ++ zeroPad 2 (Nat.repr ss) ++
    (if micro = 0 then "" else "." ++ zeroPad 6 (Nat.repr micro)) ++ "+00:00"

/-- Whether pat occurs as a contiguous substring (decidable list helper). -/
def listContainsSub (pat : List Char) : List Char → Bool
  | [] => pat.isEmpty
  | c :: rest => pat.isPrefixOf (c :: rest) || listContainsSub pat rest

/-- Whether pat occurs as a contiguous substring of s. -/
def strContains (s pat : String) : Bool :=
  listContainsSub pat.toList s.toList

/-- One serialized record: the format string of every series renders as a
bracketed, quoted timestamp string followed by comma-separated fields and the
record separator, exactly the shape produced by the per-series format calls
of the handler. -/
def mkRecord (tstr : String) (fields : List String) : String :=
  "[\"" ++ tstr ++ "\"" ++ String.join (fields.map (", " ++ ·)) ++ "], "

/-- A full series blob: the opening bracket with a trailing space, the
concatenated records, and the closing bracket with a leading space. -/
def seriesStr (records : List String) : String :=
  "[ " ++ String.join records ++ " ]"

/-- The vehicle_gps_position dataset: the fields the handler reads. All of
them are integer-valued in the log (lat, lon in 1e-7-scaled degrees, alt in
millimeters, fix_type a small unsigned code, the two times in microseconds). -/
structure GpsData where
  timestamp : List ℤ
  fix_type : List ℤ
  lat : List ℤ
  lon : List ℤ
  alt : List ℤ
  time_utc_usec : List ℤ

/-- The vehicle_attitude dataset: q0-q3 model the stored quaternion fields
in storage order (the keys named q followed by the bracketed index 0..3,
i.e. w, x, y, z), plus the three body rates. -/
structure AttitudeData where
  timestamp : List ℤ
  q0 : List Deci
  q1 : List Deci
  q2 : List Deci
  q3 : List Deci
  rollspeed : List Deci
  pitchspeed : List Deci
  yawspeed : List Deci

/-- The manual_control_setpoint dataset. Unlike the other optional streams,
the handler tests the loaded data dictionary itself for truthiness rather
than comparing it with None, so the model keeps the key set of the
dictionary (fieldNames) alongside the named fields the handler reads: a
dataset loaded as an empty mapping has no keys and is falsy in Python. -/
structure ManualData where
  fieldNames : List String
  timestamp : List ℤ
  x : List Deci
  y : List Deci
  z : List Deci
  r : List Deci

/-- Python truthiness of the manual control data dictionary:
an empty mapping is falsy, a mapping with at least one key is truthy. -/
def ManualData.isTruthy (d : ManualData) : Bool :=
  !d.fieldNames.isEmpty

/-- A manual_control_setpoint dataset that loaded as an empty mapping. -/
def emptyManualData : ManualData :=
  { fieldNames := [], timestamp := [], x := [], y := [], z := [], r := [] }

/-- The vehicle_local_position dataset (also the shape of
vehicle_local_position_setpoint): position and velocity components. -/
structure LocalPosData where
  timestamp : List ℤ
  x : List Deci
  y : List Deci
  z : List Deci
  vx : List Deci
  vy : List Deci
  vz : List Deci

/-- The vehicle_attitude_setpoint dataset: body-frame angle setpoints. -/
structure AttSpData where
  timestamp : List ℤ
  roll_body : List Deci
  pitch_body : List Deci
  yaw_body : List Deci

/-- The vehicle_rates_setpoint dataset: body-rate setpoints. -/
structure RatesData where
  timestamp : List ℤ
  roll : List Deci
  pitch : List Deci
  yaw : List Deci

/-- The actuator_outputs dataset: noutputs per sample, and output.getD x []
models the field named output with bracketed channel index x. -/
structure ActuatorOutputsData where
  timestamp : List ℤ
  noutputs : List ℕ
  output : List (List Deci)

/-- The sensor_combined dataset: raw gyro and accelerometer components
(the fields named gyro_rad and accelerometer_m_s2 with bracketed index). -/
structure SensorData where
  timestamp : List ℤ
  gyro_rad0 : List Deci
  gyro_rad1 : List Deci
  gyro_rad2 : List Deci
  accelerometer0 : List Deci
  accelerometer1 : List Deci
  accelerometer2 : List Deci

/-- The actuator_controls_0 dataset: the first four control channels
(the fields named control with bracketed index 0..3). -/
structure ActCtrlData where
  timestamp : List ℤ
  control0 : List Deci
  control1 : List Deci
  control2 : List Deci
  control3 : List Deci

/-- Index of the first list entry satisfying the predicate, if any: models
taking the first element of np.nonzero applied to an elementwise comparison. -/
def firstTrueIndex (p : ℤ → Bool) : List ℤ → Option ℕ
  | [] => none
  | v :: vs =>
    if p v then some 0
    else (firstTrueIndex p vs).map (· + 1)

/-- The takeoff index: the first GPS sample whose fix_type exceeds 2, and
index 0 when no sample does (lines 115-118 of the source). -/
def takeoff_index (gps : GpsData) : ℕ :=
  match firstTrueIndex (fun v => 2 < v) gps.fix_type with
  | some i => i
  | none => 0

/-- Takeoff altitude string: the stored millimeter value at the takeoff
index times 1.e-3, formatted to 3 decimal places. -/
def takeoff_altitude (gps : GpsData) : String :=
  fmtFixed 3 (intTimesPow10Neg (gps.alt.getD (takeoff_index gps) 0) 3)

/-- Takeoff latitude string: the stored 1e-7-scaled integer at the takeoff
index times 1.e-7, formatted to 10 decimal places. -/
def takeoff_latitude (gps : GpsData) : String :=
  fmtFixed 10 (intTimesPow10Neg (gps.lat.getD (takeoff_index gps) 0) 7)

/-- Takeoff longitude string: the stored 1e-7-scaled integer at the takeoff
index times 1.e-7, formatted to 10 decimal places. -/
def takeoff_longitude (gps : GpsData) : String :=
  fmtFixed 10 (intTimesPow10Neg (gps.lon.getD (takeoff_index gps) 0) 7)

/-- The single per-log UTC offset in microseconds: the GPS UTC time at the
takeoff index minus the GPS device timestamp at the takeoff index
(lines 126-127 of the source). -/
def utc_offset (gps : GpsData) : ℤ :=
  gps.time_utc_usec.getD (takeoff_index gps) 0 -
    gps.timestamp.getD (takeoff_index gps) 0

/-- One record of the position series: timestamp string from the device
timestamp plus the UTC offset, then longitude, latitude (both scaled by
1.e-7, 10 decimal places) and altitude (scaled by 1.e-3, 3 decimal places),
in that order (lines 171-183). -/
def positionRecord (gps : GpsData) (off : ℤ) (i : ℕ) : String :=
  mkRecord (isoUTC (gps.timestamp.getD i 0 + off))
    [fmtFixed 10 (intTimesPow10Neg (gps.lon.getD i 0) 7),
     fmtFixed 10 (intTimesPow10Neg (gps.lat.getD i 0) 7),
     fmtFixed 3 (intTimesPow10Neg (gps.alt.getD i 0) 3)]

/-- The position series blob (required stream; one record per GPS sample). -/
def position_data (gps : GpsData) (off : ℤ) : String :=
  seriesStr ((List.range gps.timestamp.length).map (positionRecord gps off))

/-- One record of the attitude series: timestamp string, then the quaternion
emitted in the order q1, q2, q3, q0 of the storage fields (the source binds
w to index 0 and emits x, y, z, w as Cesium expects), then the three body
rates, all at 6 decimal places (lines 192-207). -/
def attitudeRecord (att : AttitudeData) (off : ℤ) (i : ℕ) : String :=
  mkRecord (isoUTC (att.timestamp.getD i 0 + off))
    [fmtFixed 6 (att.q1.getD i ⟨0, 0⟩),
     fmtFixed 6 (att.q2.getD i ⟨0, 0⟩),
     fmtFixed 6 (att.q3.getD i ⟨0, 0⟩),
     fmtFixed 6 (att.q0.getD i ⟨0, 0⟩),
     fmtFixed 6 (att.rollspeed.getD i ⟨0, 0⟩),
     fmtFixed 6 (att.pitchspeed.getD i ⟨0, 0⟩),
     fmtFixed 6 (att.yawspeed.getD i ⟨0, 0⟩)]

/-- The attitude series blob (required stream). -/
def attitude_data (att : AttitudeData) (off : ℤ) : String :=
  seriesStr ((List.range att.timestamp.length).map (attitudeRecord att off))

/-- The label and color chosen for a flight mode code: the table entry when
the code is in the table, otherwise the empty label and the fallback color
(lines 136-140). The table itself lives in plot_app/helper
(flight_modes_table) and is kept abstract as a parameter. -/
def flightModeLabelColor (table : ℤ → Option (String × String)) (mode : ℤ) :
    String × String :=
  match table mode with
  | some nc => nc
  | none => ("", "#ffffff")

/-- One record of the flight-modes series: timestamp string from the event
time plus the UTC offset, and the quoted mode label. Only the label is part
of the record; the color chosen next to it is not emitted (lines 141-142). -/
def flightModeRecord (table : ℤ → Option (String × String)) (off : ℤ)
    (event : ℤ × ℤ) : String :=
  mkRecord (isoUTC (event.1 + off))
    ["\"" ++ (flightModeLabelColor table event.2).1 ++ "\""]

/-- The flight-modes series blob, one record per mode-change event. The
event list is the result of get_flight_mode_changes (plot_app/helper),
kept abstract as a parameter. -/
def flight_modes_str (table : ℤ → Option (String × String)) (off : ℤ)
    (changes : List (ℤ × ℤ)) : String :=
  seriesStr (changes.map (flightModeRecord table off))

/-- One record of the manual control series: timestamp string, then the
x, y, z, r stick values at 3 decimal places (lines 148-157). -/
def manualRecord (d : ManualData) (off : ℤ) (i : ℕ) : String :=
  mkRecord (isoUTC (d.timestamp.getD i 0 + off))
    [fmtFixed 3 (d.x.getD i ⟨0, 0⟩),
     fmtFixed 3 (d.y.getD i ⟨0, 0⟩),
     fmtFixed 3 (d.z.getD i ⟨0, 0⟩),
     fmtFixed 3 (d.r.getD i ⟨0, 0⟩)]

/-- The manual control series blob. The guard is the Python truthiness test
on the loaded value (line 147): the loop runs only when the dataset loaded
and its data dictionary is non-empty. -/
def manual_control_setpoints_str (off : ℤ) (m : Option ManualData) : String :=
  match m with
  | some d =>
    if d.isTruthy then
      seriesStr ((List.range d.timestamp.length).map (manualRecord d off))
    else seriesStr []
  | none => seriesStr []

/-- One record of the rate-setpoint series: roll, pitch, yaw rate setpoints
at 6 decimal places (lines 216-224). -/
def ratesRecord (d : RatesData) (off : ℤ) (i : ℕ) : String :=
  mkRecord (isoUTC (d.timestamp.getD i 0 + off))
    [fmtFixed 6 (d.roll.getD i ⟨0, 0⟩),
     fmtFixed 6 (d.pitch.getD i ⟨0, 0⟩),
     fmtFixed 6 (d.yaw.getD i ⟨0, 0⟩)]

/-- The rate-setpoint series blob, guarded by an is-not-None test
(line 215). -/
def vehicle_rates_setpoint_data (off : ℤ) (o : Option RatesData) : String :=
  match o with
  | some d => seriesStr ((List.range d.timestamp.length).map (ratesRecord d off))
  | none => seriesStr []

/-- One record of the sensor-combined series: raw gyro x, y, z then raw
acceleration x, y, z at 6 decimal places (lines 230-241). -/
def sensorRecord (d : SensorData) (off : ℤ) (i : ℕ) : String :=
  mkRecord (isoUTC (d.timestamp.getD i 0 + off))
    [fmtFixed 6 (d.gyro_rad0.getD i ⟨0, 0⟩),
     fmtFixed 6 (d.gyro_rad1.getD i ⟨0, 0⟩),
     fmtFixed 6 (d.gyro_rad2.getD i ⟨0, 0⟩),
     fmtFixed 6 (d.accelerometer0.getD i ⟨0, 0⟩),
     fmtFixed 6 (d.accelerometer1.getD i ⟨0, 0⟩),
     fmtFixed 6 (d.accelerometer2.getD i ⟨0, 0⟩)]

/-- The sensor-combined series blob, guarded by an is-not-None test
(line 229). -/
def sensor_combined_data (off : ℤ) (o : Option SensorData) : String :=
  match o with
  | some d => seriesStr ((List.range d.timestamp.length).map (sensorRecord d off))
  | none => seriesStr []

/-- One record of the attitude-setpoint series: roll, pitch, yaw body-frame
setpoints at 6 decimal places (lines 247-256). -/
def attSpRecord (d : AttSpData) (off : ℤ) (i : ℕ) : String :=
  mkRecord (isoUTC (d.timestamp.getD i 0 + off))
    [fmtFixed 6 (d.roll_body.getD i ⟨0, 0⟩),
     fmtFixed 6 (d.pitch_body.getD i ⟨0, 0⟩),
     fmtFixed 6 (d.yaw_body.getD i ⟨0, 0⟩)]

/-- The attitude-setpoint series blob, guarded by an is-not-None test
(line 246). -/
def vehicle_attitude_setpoint_data (off : ℤ) (o : Option AttSpData) : String :=
  match o with
  | some d => seriesStr ((List.range d.timestamp.length).map (attSpRecord d off))
  | none => seriesStr []

/-- One record of a local-position series (also used for the local position
setpoint): x, y, z then vx, vy, vz at 6 decimal places (lines 262-274 and
280-292). -/
def localPosRecord (d : LocalPosData) (off : ℤ) (i : ℕ) : String :=
  mkRecord (isoUTC (d.timestamp.getD i 0 + off))
    [fmtFixed 6 (d.x.getD i ⟨0, 0⟩),
     fmtFixed 6 (d.y.getD i ⟨0, 0⟩),
     fmtFixed 6 (d.z.getD i ⟨0, 0⟩),
     fmtFixed 6 (d.vx.getD i ⟨0, 0⟩),
     fmtFixed 6 (d.vy.getD i ⟨0, 0⟩),
     fmtFixed 6 (d.vz.getD i ⟨0, 0⟩)]

/-- The local-position series blob, guarded by an is-not-None test
(line 261). -/
def vehicle_local_position_data (off : ℤ) (o : Option LocalPosData) : String :=
  match o with
  | some d => seriesStr ((List.range d.timestamp.length).map (localPosRecord d off))
  | none => seriesStr []

/-- The local-position-setpoint series blob, guarded by an is-not-None test
(line 279). -/
def vehicle_local_position_setpoint_data (off : ℤ) (o : Option LocalPosData) :
    String :=
  match o with
  | some d => seriesStr ((List.range d.timestamp.length).map (localPosRecord d off))
  | none => seriesStr []

/-- np.amax over the noutputs field (the maximum observed output count). -/
def max_outputs (d : ActuatorOutputsData) : ℕ :=
  d.noutputs.foldr max 0

/-- The capped channel count the source computes on lines 300-302:
8, lowered to the observed maximum when that is smaller. The loop that
builds the records does not use this value. -/
def num_actuator_outputs (d : ActuatorOutputsData) : ℕ :=
  if max_outputs d < 8 then max_outputs d else 8

/-- The numeric fields of one actuator-outputs record: the inner loop on
line 315 runs for x in range of the observed maximum output count and
formats the channel with bracketed index x at 6 decimal places. -/
def actuatorRecordFields (d : ActuatorOutputsData) (i : ℕ) : List String :=
  (List.range (max_outputs d)).map
    (fun x => fmtFixed 6 ((d.output.getD x []).getD i ⟨0, 0⟩))

/-- One record of the actuator-outputs series (lines 305-322). -/
def actuatorRecord (d : ActuatorOutputsData) (off : ℤ) (i : ℕ) : String :=
  mkRecord (isoUTC (d.timestamp.getD i 0 + off)) (actuatorRecordFields d i)

/-- The actuator-outputs series blob, guarded by an is-not-None test
(line 299). -/
def actuator_outputs_data (off : ℤ) (o : Option ActuatorOutputsData) : String :=
  match o with
  | some d => seriesStr ((List.range d.timestamp.length).map (actuatorRecord d off))
  | none => seriesStr []

/-- One record of the actuator-controls series: control channels 0..3 at
6 decimal places (lines 328-338). -/
def ctrlRecord (d : ActCtrlData) (off : ℤ) (i : ℕ) : String :=
  mkRecord (isoUTC (d.timestamp.getD i 0 + off))
    [fmtFixed 6 (d.control0.getD i ⟨0, 0⟩),
     fmtFixed 6 (d.control1.getD i ⟨0, 0⟩),
     fmtFixed 6 (d.control2.getD i ⟨0, 0⟩),
     fmtFixed 6 (d.control3.getD i ⟨0, 0⟩)]

/-- The actuator-controls series blob, guarded by an is-not-None test
(line 327). -/
def actuator_controls_0_data (off : ℤ) (o : Option ActCtrlData) : String :=
  match o with
  | some d => seriesStr ((List.range d.timestamp.length).map (ctrlRecord d off))
  | none => seriesStr []

/-- The fixed-wing model asset path used by the handler. -/
def fixedWingUri : String :=
  "plot_app/static/cesium/SampleData/models/CesiumAir/Cesium_Air.glb"

/-- The multirotor model asset path used by the handler. -/
def multirotorUri : String :=
  "plot_app/static/cesium/models/iris/iris.glb"

/-- The vehicle model selector (lines 344-357): the MAV_TYPE initial
parameter (None when absent) chooses the model scale factor and asset path.
Codes 1 and 22 map to the fixed-wing asset at scale 0.06; code 2 and every
other value, absent metadata included, map to the multirotor asset at
scale 1. -/
def select_model (mav_type : Option ℤ) : Deci × String :=
  if mav_type = some 1 then (⟨6, 2⟩, fixedWingUri)
  else if mav_type = some 2 then (⟨1, 0⟩, multirotorUri)
  else if mav_type = some 22 then (⟨6, 2⟩, fixedWingUri)
  else (⟨1, 0⟩, multirotorUri)

/-- The dictionary get with default None on the initial parameters:
ulog.initial_parameters.get applied to the MAV_TYPE key (line 344). -/
def mavTypeOf (params : List (String × ℤ)) : Option ℤ :=
  List.lookup "MAV_TYPE" params

/-- The parsed log object, with one Option per dataset the handler asks
for: none models a get_dataset call that raised KeyError, IndexError or
ValueError (the stream cannot be located or is malformed). The
vehicle_global_position dataset is required but never read afterwards, so
only its presence is modelled. -/
structure Ulog where
  vehicle_gps_position : Option GpsData
  vehicle_global_position : Option Unit
  vehicle_attitude : Option AttitudeData
  initial_parameters : List (String × ℤ)

/-- The error message of the CustomHTTPError raised when a required topic
is missing (lines 45-49). -/
def requiredTopicsError : String :=
  "The log does not contain all required topics<br />(vehicle_gps_position, vehicle_global_position, vehicle_attitude)"

/-- The required-topics extraction (lines 39-49): the three mandatory
datasets are looked up inside one try block, and any failure aborts the
request with a 400 CustomHTTPError carrying the message that lists all
three required topic names. -/
def loadRequiredTopics (u : Ulog) :
    Except (ℕ × String) (GpsData × Unit × AttitudeData) :=
  match u.vehicle_gps_position, u.vehicle_global_position, u.vehicle_attitude with
  | some gps, some pos, some att => .ok (gps, pos, att)
  | _, _, _ => .error (400, requiredTopicsError)

/-- The eight optional streams of the handler (lines 53-60). -/
structure OptionalStreams where
  manual_control_setpoint : Option ManualData
  vehicle_local_position : Option LocalPosData
  vehicle_local_position_setpoint : Option LocalPosData
  vehicle_attitude_setpoint : Option AttSpData
  vehicle_rates_setpoint : Option RatesData
  actuator_outputs : Option ActuatorOutputsData
  sensor_combined : Option SensorData
  actuator_controls_0 : Option ActCtrlData

/-- The eight serialized blobs built from the optional streams. -/
structure OptionalSeriesOut where
  manual : String
  localPos : String
  localPosSp : String
  attSp : String
  ratesSp : String
  actOut : String
  sensors : String
  actCtrl : String

/-- Serialization of every optional stream: each blob is produced from its
own stream and the shared UTC offset, independently of the others. -/
def serializeOptionals (off : ℤ) (s : OptionalStreams) : OptionalSeriesOut :=
  { manual := manual_control_setpoints_str off s.manual_control_setpoint
    localPos := vehicle_local_position_data off s.vehicle_local_position
    localPosSp :=
      vehicle_local_position_setpoint_data off s.vehicle_local_position_setpoint
    attSp := vehicle_attitude_setpoint_data off s.vehicle_attitude_setpoint
    ratesSp := vehicle_rates_setpoint_data off s.vehicle_rates_setpoint
    actOut := actuator_outputs_data off s.actuator_outputs
    sensors := sensor_combined_data off s.sensor_combined
    actCtrl := actuator_controls_0_data off s.actuator_controls_0 }

/-- An optional-stream configuration in which every stream is absent. -/
def allAbsent : OptionalStreams :=
  { manual_control_setpoint := none
    vehicle_local_position := none
    vehicle_local_position_setpoint := none
    vehicle_attitude_setpoint := none
    vehicle_rates_setpoint := none
    actuator_outputs := none
    sensor_combined := none
    actuator_controls_0 := none }

/-- A lookup table with no entries, for exercising the unknown-code path. -/
def emptyModeTable : ℤ → Option (String × String) :=
  fun _ => none

/-- A one-entry lookup table, for exercising the recognized-code path. -/
def oneModeTable : ℤ → Option (String × String) :=
  fun m => if m = 1 then some ("Manual", "#cc0000") else none

/-- A GPS stream holding the concrete position sample of the round-trip
formatting property: stored lon 473977420, lat 85455940 (1e-7-scaled
degrees) and alt 1500 (millimeters), with a valid fix. -/
def c9Gps : GpsData :=
  { timestamp := [100]
    fix_type := [3]
    lat := [85455940]
    lon := [473977420]
    alt := [1500]
    time_utc_usec := [1469112187000000] }

/-- A GPS stream with a single sample at device timestamp 100. -/
def c3Gps : GpsData :=
  { timestamp := [100]
    fix_type := [3]
    lat := [0]
    lon := [0]
    alt := [0]
    time_utc_usec := [100] }

/-- An attitude stream with a single sample at device timestamp 100. -/
def c3Att : AttitudeData :=
  { timestamp := [100]
    q0 := [⟨1, 0⟩], q1 := [⟨0, 0⟩], q2 := [⟨0, 0⟩], q3 := [⟨0, 0⟩]
    rollspeed := [⟨0, 0⟩], pitchspeed := [⟨0, 0⟩], yawspeed := [⟨0, 0⟩] }

/-- An attitude stream storing the quaternion w, x, y, z =
0.7, 0.1, 0.2, 0.68 in the fields with storage indices 0..3. -/
def c6Att : AttitudeData :=
  { timestamp := [0]
    q0 := [⟨7, 1⟩], q1 := [⟨1, 1⟩], q2 := [⟨2, 1⟩], q3 := [⟨68, 2⟩]
    rollspeed := [⟨0, 0⟩], pitchspeed := [⟨0, 0⟩], yawspeed := [⟨0, 0⟩] }

/-- An actuator-outputs stream whose observed maximum output count is 9:
one sample, nine populated channels. -/
def c1Nine : ActuatorOutputsData :=
  { timestamp := [0]
    noutputs := [9]
    output := List.replicate 9 [⟨1, 0⟩] }

/-- An actuator-outputs stream whose observed maximum output count is 4. -/
def c1Four : ActuatorOutputsData :=
  { timestamp := [0]
    noutputs := [4]
    output := List.replicate 8 [⟨1, 0⟩] }

/-- A rate-setpoint stream with a single all-zero sample. -/
def c10Rates : RatesData :=
  { timestamp := [0], roll := [⟨0, 0⟩], pitch := [⟨0, 0⟩], yaw := [⟨0, 0⟩] }

/-- A log containing the three required datasets. -/
def c2Present : Ulog :=
  { vehicle_gps_position := some c3Gps
    vehicle_global_position := some ()
    vehicle_attitude := some c3Att
    initial_parameters := [] }

/-- A log missing the vehicle_gps_position dataset. -/
def c2Missing : Ulog :=
  { vehicle_gps_position := none
    vehicle_global_position := some ()
    vehicle_attitude := some c3Att
    initial_parameters := [] }

example : fmtFixed 3 (intTimesPow10Neg 1500 3) = "1.500" := by decide
example : fmtFixed 10 (intTimesPow10Neg 473977420 7) = "47.3977420000" := by decide
example : fmtFixed 6 ⟨7, 1⟩ = "0.700000" := by decide
example : fmtFixed 6 ⟨-5, 1⟩ = "-0.500000" := by decide
example : isoUTC 0 = "1970-01-01T00:00:00+00:00" := by decide
example : isoUTC 1000001 = "1970-01-01T00:00:01.000001+00:00" := by decide
example : seriesStr [] = "[  ]" := by decide
example : strContains "abc def" "c d" = true := by decide
example : strContains "abc def" "#ffffff" = false := by decide
example : mkRecord "T" ["1.0", "2.0"] = "[\"T\", 1.0, 2.0], " := by decide

theorem firstTrueIndex_of_forall_false {p : ℤ → Bool} :
    ∀ {l : List ℤ}, (∀ x ∈ l, p x = false) → firstTrueIndex p l = none := by
  intro l
  induction l with
  | nil => intro _; rfl
  | cons v vs ih =>
    intro h
    have hv : p v = false := h v (List.mem_cons_self v vs)
    have hrest : firstTrueIndex p vs = none :=
      ih fun x hx => h x (List.mem_cons_of_mem v hx)
    simp [firstTrueIndex, hv, hrest]

theorem firstTrueIndex_first {p : ℤ → Bool} :
    ∀ (l : List ℤ) (i : ℕ), i < l.length → p (l.getD i 0) = true →
      (∀ j, j < i → p (l.getD j 0) = false) → firstTrueIndex p l = some i := by
  intro l
  induction l with
  | nil => intro i hi; simp at hi
  | cons v vs ih =>
    intro i hi hp hprev
    cases i with
    | zero => simp_all [firstTrueIndex]
    | succ k =>
      have hv : p v = false := by
        have := hprev 0 (Nat.succ_pos k)
        simpa using this
      have hk : firstTrueIndex p vs = some k := by
        apply ih k (by simpa using hi) (by simpa using hp)
        intro j hj
        have := hprev (j + 1) (Nat.succ_lt_succ hj)
        simpa using this
      simp [firstTrueIndex, hv, hk]

/-- C4: the takeoff index is the index of the first GPS sample whose
fix_type value is strictly greater than 2, and 0 when no sample exceeds
the threshold; on the fix-quality list 1, 2, 3, 4 the selected index is 2. -/
theorem C4_takeoff_index :
    (∀ (gps : GpsData) (i : ℕ), i < gps.fix_type.length →
        2 < gps.fix_type.getD i 0 → (∀ j, j < i → gps.fix_type.getD j 0 ≤ 2) →
        takeoff_index gps = i)
    ∧ (∀ gps : GpsData, (∀ x ∈ gps.fix_type, x ≤ 2) → takeoff_index gps = 0)
    ∧ takeoff_index
        { timestamp := [], fix_type := [1, 2, 3, 4], lat := [], lon := [],
          alt := [], time_utc_usec := [] } = 2 := by
  refine ⟨?_, ?_, by decide⟩
  · intro gps i hi hp hprev
    have h : firstTrueIndex (fun v => decide (2 < v)) gps.fix_type = some i := by
      apply firstTrueIndex_first gps.fix_type i hi
      · simpa using hp
      · intro j hj
        simpa using hprev j hj
    simp [takeoff_index, h]
  · intro gps h
    have hnone : firstTrueIndex (fun v => decide (2 < v)) gps.fix_type = none := by
      apply firstTrueIndex_of_forall_false
      intro x hx
      simpa using h x hx
    simp [takeoff_index, hnone]

/-- Witness for C4 at the concrete fix-quality lists of the claim. -/
theorem C4_takeoff_index_witness :
    takeoff_index
      { timestamp := [], fix_type := [1, 2, 3, 4], lat := [], lon := [],
        alt := [], time_utc_usec := [] } = 2
    ∧ takeoff_index
      { timestamp := [], fix_type := [1, 2], lat := [], lon := [],
        alt := [], time_utc_usec := [] } = 0 := by
  constructor
  · apply C4_takeoff_index.1 _ 2 (by decide) (by decide)
    intro j hj
    interval_cases j <;> decide
  · exact C4_takeoff_index.2.1 _ (by decide)

/-- C2: a log containing the three required streams does not fail with the
missing-required-stream error, while a log in which any of the three cannot
be obtained aborts with a 400 error whose message names all three required
stream names. -/
theorem C2_required_topics :
    (∀ u : Ulog, u.vehicle_gps_position.isSome →
        u.vehicle_global_position.isSome → u.vehicle_attitude.isSome →
        ∃ r, loadRequiredTopics u = .ok r)
    ∧ (∀ u : Ulog,
        (u.vehicle_gps_position = none ∨ u.vehicle_global_position = none ∨
         u.vehicle_attitude = none) →
        loadRequiredTopics u = .error (400, requiredTopicsError))
    ∧ strContains requiredTopicsError "vehicle_gps_position" = true
    ∧ strContains requiredTopicsError "vehicle_global_position" = true
    ∧ strContains requiredTopicsError "vehicle_attitude" = true := by
  refine ⟨?_, ?_, by decide, by decide, by decide⟩
  · intro u hg hp ha
    rcases heg : u.vehicle_gps_position with _ | g
    · rw [heg] at hg; simp at hg
    rcases hep : u.vehicle_global_position with _ | p
    · rw [hep] at hp; simp at hp
    rcases hea : u.vehicle_attitude with _ | a
    · rw [hea] at ha; simp at ha
    exact ⟨(g, p, a), by simp [loadRequiredTopics, heg, hep, hea]⟩
  · intro u h
    rcases heg : u.vehicle_gps_position with _ | g <;>
      rcases hep : u.vehicle_global_position with _ | p <;>
      rcases hea : u.vehicle_attitude with _ | a <;>
      simp_all [loadRequiredTopics]

/-- Witness for C2: a log with all three required datasets loads, and a log
whose GPS dataset is missing fails with the 400 error. -/
theorem C2_required_topics_witness :
    (∃ r, loadRequiredTopics c2Present = .ok r)
    ∧ loadRequiredTopics c2Missing = .error (400, requiredTopicsError) := by
  constructor
  · exact C2_required_topics.1 c2Present rfl rfl rfl
  · exact C2_required_topics.2.1 c2Missing (Or.inl rfl)

/-- C7: the vehicle model selector is total over the MAV_TYPE code: 1 and 22
map to the fixed-wing asset at scale 0.06, 2 maps to the multirotor asset at
scale 1, and every other value, absent metadata included, maps to the
multirotor asset at scale 1. -/
theorem C7_select_model :
    select_model (some 1) = (⟨6, 2⟩, fixedWingUri)
    ∧ select_model (some 2) = (⟨1, 0⟩, multirotorUri)
    ∧ select_model (some 22) = (⟨6, 2⟩, fixedWingUri)
    ∧ select_model none = (⟨1, 0⟩, multirotorUri)
    ∧ select_model (mavTypeOf []) = (⟨1, 0⟩, multirotorUri)
    ∧ (∀ m : Option ℤ, m ≠ some 1 → m ≠ some 2 → m ≠ some 22 →
        select_model m = (⟨1, 0⟩, multirotorUri)) := by
  refine ⟨by decide, by decide, by decide, by decide, by decide, ?_⟩
  intro m h1 h2 h22
  simp [select_model, h1, h2, h22]

/-- Witness for C7 at an unrecognized code. -/
theorem C7_select_model_witness :
    select_model (some 7) = (⟨1, 0⟩, multirotorUri) :=
  C7_select_model.2.2.2.2.2 (some 7) (by decide) (by decide) (by decide)

/-- C9: the stored 1e-7-scaled integers 473977420 (lon) and 85455940 (lat)
format to 10 decimal places as 47.3977420000 and 8.5455940000, and the
stored millimeter altitude 1500 formats to 3 decimal places as 1.500, both
in the takeoff reference strings and in the position record. -/
theorem C9_position_formatting :
    takeoff_longitude c9Gps = "47.3977420000"
    ∧ takeoff_latitude c9Gps = "8.5455940000"
    ∧ takeoff_altitude c9Gps = "1.500"
    ∧ positionRecord c9Gps 0 0 =
        mkRecord (isoUTC 100) ["47.3977420000", "8.5455940000", "1.500"] := by
  refine ⟨by decide, by decide, by decide, by decide⟩

/-- C6: every attitude record emits the quaternion components in the order
x, y, z, w (storage indices 1, 2, 3, 0), followed by rollspeed, pitchspeed
and yawspeed, at 6 decimal places; stored w, x, y, z = 0.7, 0.1, 0.2, 0.68
is emitted as 0.1, 0.2, 0.68, 0.7. -/
theorem C6_attitude_quaternion_order :
    (∀ (att : AttitudeData) (off : ℤ) (i : ℕ),
      attitudeRecord att off i =
        mkRecord (isoUTC (att.timestamp.getD i 0 + off))
          [fmtFixed 6 (att.q1.getD i ⟨0, 0⟩),
           fmtFixed 6 (att.q2.getD i ⟨0, 0⟩),
           fmtFixed 6 (att.q3.getD i ⟨0, 0⟩),
           fmtFixed 6 (att.q0.getD i ⟨0, 0⟩),
           fmtFixed 6 (att.rollspeed.getD i ⟨0, 0⟩),
           fmtFixed 6 (att.pitchspeed.getD i ⟨0, 0⟩),
           fmtFixed 6 (att.yawspeed.getD i ⟨0, 0⟩)])
    ∧ attitudeRecord c6Att 0 0 =
        mkRecord (isoUTC 0)
          ["0.100000", "0.200000", "0.680000", "0.700000",
           "0.000000", "0.000000", "0.000000"] := by
  exact ⟨fun att off i => rfl, by decide⟩

/-- C1: the actuator-outputs record width is the observed maximum of the
noutputs field, not its minimum with 8: with an observed maximum of 9 every
record carries 9 numeric channels even though the capped count computed on
lines 300-302 is 8; with an observed maximum of 4 every record carries 4
channels. -/
theorem C1_actuator_channel_count_bug :
    num_actuator_outputs c1Nine = 8
    ∧ (actuatorRecordFields c1Nine 0).length = 9
    ∧ (actuatorRecordFields c1Four 0).length = 4
    ∧ (∀ (d : ActuatorOutputsData) (i : ℕ),
        (actuatorRecordFields d i).length = max_outputs d) := by
  refine ⟨by decide, by decide, by decide, ?_⟩
  intro d i
  simp [actuatorRecordFields]

/-- Counterexample to C8 as stated: for a mode-change event with an unknown
code, the emitted record is the timestamp string with an empty quoted label,
and the fallback color never appears in the record. -/
theorem C8_color_not_emitted :
    flightModeRecord emptyModeTable 0 (0, 99) =
      "[\"1970-01-01T00:00:00+00:00\", \"\"], "
    ∧ strContains (flightModeRecord emptyModeTable 0 (0, 99)) "#ffffff"
        = false := by
  exact ⟨by decide, by decide⟩

/-- C8 amended: for an unknown mode code the handler selects the empty
label and the fallback color, and the emitted record carries the empty
label only (the color is not part of the record); a recognized code is
replaced by its table label. -/
theorem C8_unknown_mode_fallback :
    ∀ (table : ℤ → Option (String × String)) (off t mode : ℤ),
      (table mode = none →
        flightModeLabelColor table mode = ("", "#ffffff") ∧
        flightModeRecord table off (t, mode) =
          mkRecord (isoUTC (t + off)) ["\"\""])
      ∧ (∀ nm c, table mode = some (nm, c) →
          flightModeRecord table off (t, mode) =
            mkRecord (isoUTC (t + off)) ["\"" ++ nm ++ "\""]) := by
  intro table off t mode
  constructor
  · intro h
    constructor
    · simp [flightModeLabelColor, h]
    · simp [flightModeRecord, flightModeLabelColor, h]
  · intro nm c h
    simp [flightModeRecord, flightModeLabelColor, h]

/-- Witness for the amended C8 at a concrete unknown code and a concrete
recognized code. -/
theorem C8_unknown_mode_fallback_witness :
    (flightModeLabelColor emptyModeTable 99 = ("", "#ffffff")
      ∧ flightModeRecord emptyModeTable 0 (0, 99) =
          mkRecord (isoUTC (0 + 0)) ["\"\""])
    ∧ flightModeRecord oneModeTable 0 (0, 1) =
        mkRecord (isoUTC (0 + 0)) ["\"Manual\""] := by
  constructor
  · exact (C8_unknown_mode_fallback emptyModeTable 0 0 99).1 rfl
  · exact (C8_unknown_mode_fallback oneModeTable 0 0 1).2 "Manual" "#cc0000"
      (by decide)

/-- C5: an absent optional stream serializes to the empty series, and each
optional series depends only on its own stream, so absence of one stream
leaves every other series unchanged, for every combination of absences. -/
theorem C5_absent_optional_streams :
    ∀ (off : ℤ) (s t : OptionalStreams),
      ((s.manual_control_setpoint = none →
          (serializeOptionals off s).manual = "[  ]")
       ∧ (s.vehicle_local_position = none →
          (serializeOptionals off s).localPos = "[  ]")
       ∧ (s.vehicle_local_position_setpoint = none →
          (serializeOptionals off s).localPosSp = "[  ]")
       ∧ (s.vehicle_attitude_setpoint = none →
          (serializeOptionals off s).attSp = "[  ]")
       ∧ (s.vehicle_rates_setpoint = none →
          (serializeOptionals off s).ratesSp = "[  ]")
       ∧ (s.actuator_outputs = none →
          (serializeOptionals off s).actOut = "[  ]")
       ∧ (s.sensor_combined = none →
          (serializeOptionals off s).sensors = "[  ]")
       ∧ (s.actuator_controls_0 = none →
          (serializeOptionals off s).actCtrl = "[  ]"))
      ∧ ((s.manual_control_setpoint = t.manual_control_setpoint →
          (serializeOptionals off s).manual = (serializeOptionals off t).manual)
       ∧ (s.vehicle_local_position = t.vehicle_local_position →
          (serializeOptionals off s).localPos = (serializeOptionals off t).localPos)
       ∧ (s.vehicle_local_position_setpoint = t.vehicle_local_position_setpoint →
          (serializeOptionals off s).localPosSp = (serializeOptionals off t).localPosSp)
       ∧ (s.vehicle_attitude_setpoint = t.vehicle_attitude_setpoint →
          (serializeOptionals off s).attSp = (serializeOptionals off t).attSp)
       ∧ (s.vehicle_rates_setpoint = t.vehicle_rates_setpoint →
          (serializeOptionals off s).ratesSp = (serializeOptionals off t).ratesSp)
       ∧ (s.actuator_outputs = t.actuator_outputs →
          (serializeOptionals off s).actOut = (serializeOptionals off t).actOut)
       ∧ (s.sensor_combined = t.sensor_combined →
          (serializeOptionals off s).sensors = (serializeOptionals off t).sensors)
       ∧ (s.actuator_controls_0 = t.actuator_controls_0 →
          (serializeOptionals off s).actCtrl = (serializeOptionals off t).actCtrl)) := by
  intro off s t
  constructor
  · refine ⟨?_, ?_, ?_, ?_, ?_, ?_, ?_, ?_⟩ <;>
      (intro h; simp only [serializeOptionals]; rw [h]; rfl)
  · refine ⟨?_, ?_, ?_, ?_, ?_, ?_, ?_, ?_⟩ <;>
      (intro h; simp only [serializeOptionals]; rw [h])

/-- Witness for C5 at the all-absent configuration. -/
theorem C5_absent_optional_streams_witness :
    (serializeOptionals 0 allAbsent).manual = "[  ]"
    ∧ (serializeOptionals 0 allAbsent).localPos = "[  ]"
    ∧ (serializeOptionals 0 allAbsent).localPosSp = "[  ]"
    ∧ (serializeOptionals 0 allAbsent).attSp = "[  ]"
    ∧ (serializeOptionals 0 allAbsent).ratesSp = "[  ]"
    ∧ (serializeOptionals 0 allAbsent).actOut = "[  ]"
    ∧ (serializeOptionals 0 allAbsent).sensors = "[  ]"
    ∧ (serializeOptionals 0 allAbsent).actCtrl = "[  ]" := by
  have h := (C5_absent_optional_streams 0 allAbsent allAbsent).1
  exact ⟨h.1 rfl, h.2.1 rfl, h.2.2.1 rfl, h.2.2.2.1 rfl, h.2.2.2.2.1 rfl,
    h.2.2.2.2.2.1 rfl, h.2.2.2.2.2.2.1 rfl, h.2.2.2.2.2.2.2 rfl⟩

/-- C10: the manual control series is gated by Python truthiness of the
loaded data dictionary, so a successfully loaded but empty mapping yields
the empty series, while every other optional stream is gated only by an
is-not-None test and is serialized for every successfully loaded dataset. -/
theorem C10_manual_truthiness_gate :
    (∀ off : ℤ,
      manual_control_setpoints_str off (some emptyManualData) = "[  ]")
    ∧ (∀ (off : ℤ) (d : ManualData),
        manual_control_setpoints_str off (some d) =
          if d.isTruthy then
            seriesStr ((List.range d.timestamp.length).map (manualRecord d off))
          else "[  ]")
    ∧ (∀ (off : ℤ) (d : LocalPosData),
        vehicle_local_position_data off (some d) =
          seriesStr ((List.range d.timestamp.length).map (localPosRecord d off)))
    ∧ (∀ (off : ℤ) (d : LocalPosData),
        vehicle_local_position_setpoint_data off (some d) =
          seriesStr ((List.range d.timestamp.length).map (localPosRecord d off)))
    ∧ (∀ (off : ℤ) (d : AttSpData),
        vehicle_attitude_setpoint_data off (some d) =
          seriesStr ((List.range d.timestamp.length).map (attSpRecord d off)))
    ∧ (∀ (off : ℤ) (d : RatesData),
        vehicle_rates_setpoint_data off (some d) =
          seriesStr ((List.range d.timestamp.length).map (ratesRecord d off)))
    ∧ (∀ (off : ℤ) (d : ActuatorOutputsData),
        actuator_outputs_data off (some d) =
          seriesStr ((List.range d.timestamp.length).map (actuatorRecord d off)))
    ∧ (∀ (off : ℤ) (d : SensorData),
        sensor_combined_data off (some d) =
          seriesStr ((List.range d.timestamp.length).map (sensorRecord d off)))
    ∧ (∀ (off : ℤ) (d : ActCtrlData),
        actuator_controls_0_data off (some d) =
          seriesStr ((List.range d.timestamp.length).map (ctrlRecord d off)))
    ∧ vehicle_rates_setpoint_data 0 (some c10Rates) ≠ "[  ]" := by
  refine ⟨fun off => rfl, fun off d => rfl, fun off d => rfl, fun off d => rfl,
    fun off d => rfl, fun off d => rfl, fun off d => rfl, fun off d => rfl,
    fun off d => rfl, by decide⟩

/-- C3: the UTC offset is computed once per log from the GPS stream at the
takeoff index, every record of every series forms its timestamp string by
adding that offset to its device timestamp and rendering it through the same
conversion, and therefore equal device timestamps yield identical ISO
timestamp strings across series. -/
theorem C3_uniform_utc_offset :
    (∀ gps : GpsData, utc_offset gps =
        gps.time_utc_usec.getD (takeoff_index gps) 0 -
          gps.timestamp.getD (takeoff_index gps) 0)
    ∧ (∀ (gps : GpsData) (off : ℤ) (i : ℕ), ∃ fs,
        positionRecord gps off i =
          mkRecord (isoUTC (gps.timestamp.getD i 0 + off)) fs)
    ∧ (∀ (att : AttitudeData) (off : ℤ) (i : ℕ), ∃ fs,
        attitudeRecord att off i =
          mkRecord (isoUTC (att.timestamp.getD i 0 + off)) fs)
    ∧ (∀ (d : ManualData) (off : ℤ) (i : ℕ), ∃ fs,
        manualRecord d off i =
          mkRecord (isoUTC (d.timestamp.getD i 0 + off)) fs)
    ∧ (∀ (d : LocalPosData) (off : ℤ) (i : ℕ), ∃ fs,
        localPosRecord d off i =
          mkRecord (isoUTC (d.timestamp.getD i 0 + off)) fs)
    ∧ (∀ (d : AttSpData) (off : ℤ) (i : ℕ), ∃ fs,
        attSpRecord d off i =
          mkRecord (isoUTC (d.timestamp.getD i 0 + off)) fs)
    ∧ (∀ (d : RatesData) (off : ℤ) (i : ℕ), ∃ fs,
        ratesRecord d off i =
          mkRecord (isoUTC (d.timestamp.getD i 0 + off)) fs)
    ∧ (∀ (d : ActuatorOutputsData) (off : ℤ) (i : ℕ), ∃ fs,
        actuatorRecord d off i =
          mkRecord (isoUTC (d.timestamp.getD i 0 + off)) fs)
    ∧ (∀ (d : SensorData) (off : ℤ) (i : ℕ), ∃ fs,
        sensorRecord d off i =
          mkRecord (isoUTC (d.timestamp.getD i 0 + off)) fs)
    ∧ (∀ (d : ActCtrlData) (off : ℤ) (i : ℕ), ∃ fs,
        ctrlRecord d off i =
          mkRecord (isoUTC (d.timestamp.getD i 0 + off)) fs)
    ∧ (∀ (table : ℤ → Option (String × String)) (off : ℤ) (event : ℤ × ℤ),
        ∃ fs, flightModeRecord table off event =
          mkRecord (isoUTC (event.1 + off)) fs)
    ∧ (∀ off t1 t2 : ℤ, t1 = t2 → isoUTC (t1 + off) = isoUTC (t2 + off)) := by
  refine ⟨fun gps => rfl,
    fun gps off i => ⟨_, rfl⟩, fun att off i => ⟨_, rfl⟩,
    fun d off i => ⟨_, rfl⟩, fun d off i => ⟨_, rfl⟩, fun d off i => ⟨_, rfl⟩,
    fun d off i => ⟨_, rfl⟩, fun d off i => ⟨_, rfl⟩, fun d off i => ⟨_, rfl⟩,
    fun d off i => ⟨_, rfl⟩, fun table off event => ⟨_, rfl⟩, ?_⟩
  intro off t1 t2 h
  rw [h]

/-- Witness for C3: a position record and an attitude record whose device
timestamps are both 100 carry the same timestamp string. -/
theorem C3_uniform_utc_offset_witness :
    (∃ fs, positionRecord c3Gps 0 0 = mkRecord (isoUTC (100 + 0)) fs)
    ∧ (∃ fs, attitudeRecord c3Att 0 0 = mkRecord (isoUTC (100 + 0)) fs)
    ∧ isoUTC (100 + 0) = isoUTC (100 + 0) := by
  refine ⟨?_, ?_, C3_uniform_utc_offset.2.2.2.2.2.2.2.2.2.2.2 0 100 100 rfl⟩
  · exact C3_uniform_utc_offset.2.1 c3Gps 0 0
  · exact C3_uniform_utc_offset.2.2.1 c3Att 0 0
